import Mathlib

/-!
Shallow embedding of the calendar backend (backend.py, classes.py,
session.py) for checking its specification.

Storage is SQLite; rows travel as Python values.  Both storage cells and
in-memory object fields are modelled by one type of Python values, since
sqlite3 maps NULL/INTEGER/TEXT to None/int/str and back.  Fallible Python
code (code that can raise) is modelled in the Except monad, with one error
constructor per relevant Python exception class.
-/

set_option autoImplicit false

namespace CalendarApp

/-- A Python value as it can sit in an object field or a sqlite cell. -/
inductive PyVal where
  | vInt (i : Int)
  | vStr (s : String)
  | vBool (b : Bool)
  | vNone
deriving DecidableEq, Repr

/-- The Python exceptions the modelled code can raise: TypeError
(unpacking a missing row), ValueError (list.index miss), AttributeError
(reading a deleted attribute), sqlite3.ProgrammingError (wrong number of
bound parameters), sqlite3.IntegrityError (UNIQUE constraint violation,
a subclass of sqlite3.Error), sqlite3.OperationalError (executing a
malformed statement, which the string-formatted UPDATE of update_event
can produce). -/
inductive PyError where
  | typeError
  | valueError
  | attributeError
  | programmingError
  | integrityError
  | operationalError
deriving DecidableEq, Repr

/-- Python truthiness of a value, as used by `if x:`. -/
def truthy : PyVal → Bool
  | .vInt i => i != 0
  | .vStr s => s != ""
  | .vBool b => b
  | .vNone => false

/-- Python str() of a value; in particular str(None) is the text "None". -/
def pyStr : PyVal → String
  | .vInt i => toString i
  | .vStr s => s
  | .vBool b => if b then "True" else "False"
  | .vNone => "None"

/-- Python int() of a value.  Callers in the modelled code guard the
argument with truthiness first, so the None case is unreachable there;
int(s) on a non-numeric string (a ValueError in Python) is not modelled,
the claims only pass int-valued arguments. -/
def pyToInt : PyVal → Int
  | .vInt i => i
  | .vBool b => if b then 1 else 0
  | .vStr s => (s.toInt?).getD 0
  | .vNone => 0

/-- classes.py User: fields id, username, pw_hash, email (nullable). -/
structure User where
  id : Int
  username : String
  pw_hash : String
  email : PyVal
deriving DecidableEq, Repr

/-- classes.py Calendar: fields id, user_id, share_url (nullable). -/
structure Calendar where
  id : Int
  user_id : Int
  share_url : Option String
deriving DecidableEq, Repr

/-- classes.py Event.  The source field named private is called
privateFlag here because private is a Lean keyword.  Apart from the two
generated integer keys, every field holds whatever Python value the row
carries (title, month, day, year, notes, private columns have no NOT
NULL constraint in the schema of spec section 6). -/
structure Event where
  id : Int
  calendar_id : Int
  title : PyVal
  month : PyVal
  day : PyVal
  year : PyVal
  notes : PyVal
  privateFlag : PyVal
deriving DecidableEq, Repr

/-- Modelled from the spec: the database state over the three relations of
spec section 6 (schema.sql itself is not under src/).  Rows are kept in
insertion order, which is the order an unordered SELECT returns them in.
nextEventId models the events primary-key autoincrement counter. -/
structure DB where
  users : List User
  calendars : List Calendar
  events : List Event
  nextEventId : Int
deriving DecidableEq, Repr

/-- Reading a Python attribute that may have been deleted by delattr:
absent attribute access raises AttributeError. -/
def attr {α : Type} : Option α → Except PyError α
  | some a => .ok a
  | none => .error .attributeError

/-! ## UserDAO (backend.py) -/

/-- UserDAO.verify_password: pbkdf2.verify(password, pw_hash), the hash
primitive treated as an external one-way function hashF; verification
succeeds exactly when the stored hash is the hash of the password. -/
def verify_password (hashF : String → String) (password pw_hash : String) : Bool :=
  hashF password == pw_hash

/-- UserDAO.get_user: SELECT by username, then User(*fetchone()).  When no
row matches, fetchone() is None and User(*None) raises TypeError. -/
def get_user (db : DB) (username : String) : Except PyError User :=
  match db.users.find? (fun u => u.username == username) with
  | some u => .ok u
  | none => .error .typeError

/-- UserDAO.get_user_by_id: SELECT by user_id, same TypeError on a
missing row. -/
def get_user_by_id (db : DB) (user_id : Int) : Except PyError User :=
  match db.users.find? (fun u => u.id == user_id) with
  | some u => .ok u
  | none => .error .typeError

/-- UserDAO.delete_user: DELETE FROM users WHERE user_id = ? LIMIT 1
(removes the first matching row only). -/
def delete_user (db : DB) (user : User) : DB :=
  { db with users := db.users.eraseP (fun u => u.id == user.id) }

/-! ## CalendarDAO (backend.py) -/

/-- CalendarDAO.get_calendar: SELECT by calendar_id, TypeError on a
missing row. -/
def get_calendar (db : DB) (calendar_id : Int) : Except PyError Calendar :=
  match db.calendars.find? (fun c => c.id == calendar_id) with
  | some c => .ok c
  | none => .error .typeError

/-- CalendarDAO.get_calendar_by_user_id: SELECT by user_id, TypeError on
a missing row. -/
def get_calendar_by_user_id (db : DB) (user_id : Int) : Except PyError Calendar :=
  match db.calendars.find? (fun c => c.user_id == user_id) with
  | some c => .ok c
  | none => .error .typeError

/-- CalendarDAO.get_calendar_by_share_url.  The source builds the
parameter pack as (str(share_url)) with no trailing comma, so it passes
the token string itself, and sqlite3 treats a string as a sequence of
one-character bindings: a statement with one placeholder gets
len(share_url) bindings and raises ProgrammingError unless the token has
length exactly 1.  Only in that length-1 case does the query run, with
TypeError on a missing row as in the other lookups. -/
def get_calendar_by_share_url (db : DB) (share_url : String) : Except PyError Calendar :=
  if share_url.length == 1 then
    match db.calendars.find? (fun c => c.share_url == some share_url) with
    | some c => .ok c
    | none => .error .typeError
  else
    .error .programmingError

/-- CalendarDAO.update_calendar_share_url: UPDATE calendars SET
share_url = ? WHERE calendar_id = ?.  The share_url column is UNIQUE
(spec section 6), so writing a non-null token already held by a
different calendar raises IntegrityError and leaves storage unchanged;
multiple NULLs are allowed by SQLite UNIQUE. -/
def update_calendar_share_url (db : DB) (calendar : Calendar) : Except PyError DB :=
  if calendar.share_url.isSome &&
      db.calendars.any (fun c => c.id != calendar.id && c.share_url == calendar.share_url) then
    .error .integrityError
  else
    .ok { db with
          calendars := db.calendars.map
            (fun c => if c.id == calendar.id then { c with share_url := calendar.share_url } else c) }

/-- CalendarDAO.delete_calendar: DELETE ... WHERE calendar_id = ? LIMIT 1. -/
def delete_calendar (db : DB) (calendar : Calendar) : DB :=
  { db with calendars := db.calendars.eraseP (fun c => c.id == calendar.id) }

/-! ## EventDAO (backend.py) -/

/-- EventDAO.get_all_events: SELECT events by calendar_id; with
strip_private the statement adds AND private = 0, so only rows whose
private cell is the integer 0 are returned (a NULL private cell fails
the comparison). -/
def get_all_events (db : DB) (calendar_id : Int) (strip_private : Bool) : List Event :=
  if strip_private then
    db.events.filter (fun e => e.calendar_id == calendar_id && e.privateFlag == .vInt 0)
  else
    db.events.filter (fun e => e.calendar_id == calendar_id)

/-- EventDAO.get_event: SELECT by event_id, then Event(*fetchone());
TypeError on a missing row. -/
def get_event (db : DB) (event_id : Int) : Except PyError Event :=
  match db.events.find? (fun e => e.id == event_id) with
  | some e => .ok e
  | none => .error .typeError

/-- EventDAO.insert_event.  Modelled from the spec: the schema (spec
section 6) declares private INTEGER DEFAULT 0 and year, notes nullable;
since the source INSERT statement lists all seven columns explicitly and
binds the Python arguments, an argument left at its None default is
stored as NULL — the column DEFAULT applies only to columns absent from
the INSERT, so it never fires here.  The new row receives the next
generated event_id. -/
def insert_event (db : DB) (calendar_id : Int) (title month day year notes priv : PyVal) : DB :=
  { db with
    events := db.events ++
      [{ id := db.nextEventId, calendar_id := calendar_id, title := title, month := month,
         day := day, year := year, notes := notes, privateFlag := priv }],
    nextEventId := db.nextEventId + 1 }

/-- The six event columns update_event compares and may write. -/
inductive EventColumn where
  | title | month | day | year | notes | priv
deriving DecidableEq, Repr

/-- The payload add_update splices into the UPDATE statement text: an
int is written as a bare numeric literal, anything else goes through
str(value) between single quotes, so a None value enters the statement
as the text "None" (not as SQL NULL).  This records only what stands
in the formatted statement; how sqlite executes that statement —
including the case where a quote inside the text terminates the
literal early — is interpreted by execUpdate below. -/
def sqlLiteral : PyVal → PyVal
  | .vInt i => .vInt i
  | v => .vStr (pyStr v)

/-- Writing one column of an event row. -/
def setColumn (e : Event) (c : EventColumn) (v : PyVal) : Event :=
  match c with
  | .title => { e with title := v }
  | .month => { e with month := v }
  | .day => { e with day := v }
  | .year => { e with year := v }
  | .notes => { e with notes := v }
  | .priv => { e with privateFlag := v }

/-- The update list update_event collects: one (column, formatted value)
pair per field whose in-memory value differs from the stored row, in the
source's comparison order title, month, day, year, notes, private. -/
def eventUpdates (db_event event : Event) : List (EventColumn × PyVal) :=
  (if db_event.title != event.title then [(EventColumn.title, sqlLiteral event.title)] else []) ++
  (if db_event.month != event.month then [(EventColumn.month, sqlLiteral event.month)] else []) ++
  (if db_event.day != event.day then [(EventColumn.day, sqlLiteral event.day)] else []) ++
  (if db_event.year != event.year then [(EventColumn.year, sqlLiteral event.year)] else []) ++
  (if db_event.notes != event.notes then [(EventColumn.notes, sqlLiteral event.notes)] else []) ++
  (if db_event.privateFlag != event.privateFlag then [(EventColumn.priv, sqlLiteral event.privateFlag)] else [])

/-- One well-formed single-column write UPDATE events SET column =
value WHERE event_id = id (no LIMIT: every row with that id is
written). -/
def applyUpdate (db : DB) (event_id : Int) (u : EventColumn × PyVal) : DB :=
  { db with
    events := db.events.map (fun e => if e.id == event_id then setColumn e u.1 u.2 else e) }

/-- The SQL single-quote character, written by code point to keep it out
of the source text. -/
def sqlQuote : Char := Char.ofNat 39

/-- Recognize one column name followed by the equals sign, as it stands
inside an assignment list of the events table. -/
def columnPrefix (cs : List Char) : Option (EventColumn × List Char) :=
  if ("title = ".toList).isPrefixOf cs then some (.title, cs.drop 8)
  else if ("month = ".toList).isPrefixOf cs then some (.month, cs.drop 8)
  else if ("day = ".toList).isPrefixOf cs then some (.day, cs.drop 6)
  else if ("year = ".toList).isPrefixOf cs then some (.year, cs.drop 7)
  else if ("notes = ".toList).isPrefixOf cs then some (.notes, cs.drop 8)
  else if ("private = ".toList).isPrefixOf cs then some (.priv, cs.drop 10)
  else none

/-- Recognize one SQL literal: a quoted text literal (ended by the next
quote) or a bare integer literal. -/
def parseLit (cs : List Char) : Option (PyVal × List Char) :=
  match cs with
  | [] => none
  | c :: rest =>
    if c = sqlQuote then
      match rest.dropWhile (fun d => d ≠ sqlQuote) with
      | _ :: rest3 => some (.vStr (String.mk (rest.takeWhile (fun d => d ≠ sqlQuote))), rest3)
      | [] => none
    else
      let isIntChar := fun (d : Char) => d.isDigit || d = '-'
      match (String.mk ((c :: rest).takeWhile isIntChar)).toInt? with
      | some i => some (.vInt i, (c :: rest).dropWhile isIntChar)
      | none => none

/-- Recognize a possibly empty run of further SET-list assignments,
each of the shape comma-space column equals literal, consuming the
whole input.  The fuel argument only bounds recursion depth; callers
pass at least the input length plus one, which a run can never exhaust
since every assignment consumes characters. -/
def parseConts : Nat → List Char → Option (List (EventColumn × PyVal))
  | _, [] => some []
  | 0, _ => none
  | fuel + 1, cs =>
    match cs with
    | ',' :: ' ' :: rest =>
      match columnPrefix rest with
      | none => none
      | some (col, rest2) =>
        match parseLit rest2 with
        | none => none
        | some (v, rest3) =>
          match parseConts fuel rest3 with
          | none => none
          | some more => some ((col, v) :: more)
    | _ => none

/-- Executing one formatted UPDATE statement from add_update.  An int
payload is spliced bare and writes its one column.  A text payload
stands between the two quotes the format string supplies; if the text
itself contains no quote the statement writes that one column, but a
quote inside the text closes the literal early and the rest of the
text re-enters the statement: the tail (with the closing quote the
formatter appends) is read as further SET-list assignments in the
spelling the events grammar uses, and the statement then writes every
one of those columns — a second-order injection write.  A tail that is
not an assignment list leaves a malformed statement and sqlite raises
OperationalError. -/
def execUpdate (db : DB) (event_id : Int) (u : EventColumn × PyVal) : Except PyError DB :=
  match u.2 with
  | .vStr s =>
    let cs := s.toList
    if cs.contains sqlQuote then
      let pre := cs.takeWhile (fun d => d ≠ sqlQuote)
      let post := (cs.dropWhile (fun d => d ≠ sqlQuote)).drop 1
      match parseConts (post.length + 1) (post ++ [sqlQuote]) with
      | some extras =>
        .ok (((u.1, PyVal.vStr (String.mk pre)) :: extras).foldl
              (fun d p => applyUpdate d event_id p) db)
      | none => .error .operationalError
    else .ok (applyUpdate db event_id u)
  | _ => .ok (applyUpdate db event_id u)

/-- Executing the collected statements in order.  A statement that
raises stops the loop; the model returns the error without the
partially updated state (in the source the earlier statements stay
committed — no claim exercises a failing multi-statement update). -/
def execUpdates (db : DB) (event_id : Int) : List (EventColumn × PyVal) → Except PyError DB
  | [] => .ok db
  | u :: rest =>
    match execUpdate db event_id u with
    | .ok d2 => execUpdates d2 event_id rest
    | .error err => .error err

/-- EventDAO.update_event: fetch the stored row (TypeError if the id is
absent), diff it against the in-memory event, then execute the collected
statements in order. -/
def update_event (db : DB) (event : Event) : Except PyError DB :=
  match get_event db event.id with
  | .error err => .error err
  | .ok db_event => execUpdates db event.id (eventUpdates db_event event)

/-- EventDAO.delete_event: DELETE ... WHERE event_id = ? LIMIT 1. -/
def delete_event (db : DB) (event : Event) : DB :=
  { db with events := db.events.eraseP (fun e => e.id == event.id) }

/-- EventDAO.delete_calendar_events: DELETE FROM events WHERE
calendar_id = ? (all rows of the calendar). -/
def delete_calendar_events (db : DB) (calendar : Calendar) : DB :=
  { db with events := db.events.filter (fun e => e.calendar_id != calendar.id) }

/-! ## classes.py field mutators -/

/-- Event.update_title: if title: self.title = str(title) — falsy
arguments (None, the empty string, 0) leave the field unchanged. -/
def Event.update_title (e : Event) (title : PyVal) : Event :=
  if truthy title then { e with title := .vStr (pyStr title) } else e

/-- Event.update_date: each of month, day, year is written only when the
argument is truthy, via int(). -/
def Event.update_date (e : Event) (month day year : PyVal) : Event :=
  let e1 := if truthy month then { e with month := .vInt (pyToInt month) } else e
  let e2 := if truthy day then { e1 with day := .vInt (pyToInt day) } else e1
  if truthy year then { e2 with year := .vInt (pyToInt year) } else e2

/-- Event.update_notes: if notes: self.notes = str(notes). -/
def Event.update_notes (e : Event) (notes : PyVal) : Event :=
  if truthy notes then { e with notes := .vStr (pyStr notes) } else e

/-- Event.update_private: if private: self.private = int(private) — the
docstring requires an int argument, 0 for False, 1 for True. -/
def Event.update_private (e : Event) (priv : PyVal) : Event :=
  if truthy priv then { e with privateFlag := .vInt (pyToInt priv) } else e

/-- Calendar.generate_share_url: the random alphabet
string.ascii_letters + string.digits (62 characters). -/
def share_chars : List Char :=
  "abcdefghijklmnopqrstuvwxyzABCDEFGHIJKLMNOPQRSTUVWXYZ0123456789".toList

/-- Calendar.generate_share_url: length independent draws of
random.choice(chars), the randomness supplied as a stream r of draw
outcomes consumed from offset off (each outcome indexes the alphabet). -/
def generate_share_url (r : Nat → Nat) (off : Nat) (length : Nat) : String :=
  String.mk ((List.range length).map (fun i => share_chars.getD (r (off + i) % share_chars.length) 'a'))

/-! ## session.py -/

/-- session.py Session: user, calendar and events attributes, each
possibly absent (never assigned when login fails, removed by delattr in
delete_account).  Reading an absent attribute raises AttributeError. -/
structure Session where
  user : Option User
  calendar : Option Calendar
  events : Option (List Event)
deriving DecidableEq, Repr

/-- Session.login: fetch the user by username (TypeError propagates when
the username is unknown, before any hash comparison), then verify the
password against the stored hash. -/
def Session.login (hashF : String → String) (db : DB) (username password : String) :
    Except PyError Bool :=
  match get_user db username with
  | .error err => .error err
  | .ok u => .ok (verify_password hashF password u.pw_hash)

/-- Session.__init__ with new_user=False: run login; on success re-fetch
the user, the calendar by owner id, and the full event list; on a failed
password check the three attributes are simply never assigned. -/
def mkSession (hashF : String → String) (db : DB) (username password : String) :
    Except PyError Session :=
  match Session.login hashF db username password with
  | .error err => .error err
  | .ok true =>
    match get_user db username with
    | .error err => .error err
    | .ok u =>
      match get_calendar_by_user_id db u.id with
      | .error err => .error err
      | .ok cal =>
        .ok { user := some u, calendar := some cal,
              events := some (get_all_events db cal.id false) }
  | .ok false => .ok { user := none, calendar := none, events := none }

/-- The retry loop inside Session.new_share_url: generate a token,
attempt the UPDATE, and on an IntegrityError generate the next token and
try again against the unchanged database.  The source loop is unbounded;
fuel bounds how many attempts are examined, with none meaning the loop
has not yet succeeded within that bound. -/
def new_share_url_loop (r : Nat → Nat) (cal : Calendar) (db : DB) :
    Nat → Nat → Option (String × DB)
  | 0, _ => none
  | fuel + 1, attempt =>
    let tok := generate_share_url r (8 * attempt) 8
    match update_calendar_share_url db { cal with share_url := some tok } with
    | .ok db1 => some (tok, db1)
    | .error _ => new_share_url_loop r cal db fuel (attempt + 1)

/-- Session.new_share_url: reads self.calendar (AttributeError on a
closed session), then runs the generate-and-retry loop, leaving the
accepted token both on the in-memory calendar and in storage. -/
def Session.new_share_url (r : Nat → Nat) (sess : Session) (db : DB) (fuel : Nat) :
    Except PyError (Option (Session × DB)) :=
  match attr sess.calendar with
  | .error err => .error err
  | .ok cal =>
    match new_share_url_loop r cal db fuel 0 with
    | some (tok, db1) =>
      .ok (some ({ sess with calendar := some { cal with share_url := some tok } }, db1))
    | none => .ok none

/-- Session.new_event: insert a row scoped to the current calendar, then
reload the whole event cache from storage.  The source signature
defaults year and notes to None and private to 0; callers of the model
pass those values explicitly. -/
def Session.new_event (sess : Session) (db : DB) (title month day year notes priv : PyVal) :
    Except PyError (Session × DB) :=
  match attr sess.calendar with
  | .error err => .error err
  | .ok cal =>
    let db1 := insert_event db cal.id title month day year notes priv
    .ok ({ sess with events := some (get_all_events db1 cal.id false) }, db1)

/-- Session.get_month_events: filter the cached list by month. -/
def Session.get_month_events (sess : Session) (month : Int) : Except PyError (List Event) :=
  match attr sess.events with
  | .error err => .error err
  | .ok evs => .ok (evs.filter (fun e => e.month == PyVal.vInt month))

/-- Session.remove_event: self.events.index(event) first (ValueError
when the event is not in the cache, before any storage access), then
delete the row, then pop the found index from the cache. -/
def Session.remove_event (sess : Session) (db : DB) (event : Event) :
    Except PyError (Session × DB) :=
  match attr sess.events with
  | .error err => .error err
  | .ok evs =>
    match evs.findIdx? (fun e => e == event) with
    | none => .error .valueError
    | some i => .ok ({ sess with events := some (evs.eraseIdx i) }, delete_event db event)

/-- Session.delete_account: if confirm: (Python truthiness) delete the
calendar's events, the calendar row, the user row, in that order, then
delattr the user, calendar and events attributes; otherwise do nothing.
On a closed session the first self.calendar read raises AttributeError
before any storage access. -/
def Session.delete_account (sess : Session) (db : DB) (confirm : PyVal) :
    Except PyError (Session × DB) :=
  if truthy confirm then
    match attr sess.calendar with
    | .error err => .error err
    | .ok cal =>
      let db2 := delete_calendar (delete_calendar_events db cal) cal
      match attr sess.user with
      | .error err => .error err
      | .ok u =>
        let db3 := delete_user db2 u
        match attr sess.events with
        | .error err => .error err
        | .ok _ => .ok ({ user := none, calendar := none, events := none }, db3)
  else
    .ok (sess, db)

/-- session.py ShareSession after construction: the calendar resolved
from the share token and the privacy-stripped event cache. -/
structure ShareSession where
  calendar : Calendar
  events : List Event
deriving DecidableEq, Repr

/-- ShareSession.__init__: resolve the calendar by share token, then
cache get_all_events with strip_private=True. -/
def mkShareSession (db : DB) (share_url : String) : Except PyError ShareSession :=
  match get_calendar_by_share_url db share_url with
  | .error err => .error err
  | .ok cal => .ok { calendar := cal, events := get_all_events db cal.id true }

/-- ShareSession.get_month_events: filter the cached list by month. -/
def ShareSession.get_month_events (ss : ShareSession) (month : Int) : List Event :=
  ss.events.filter (fun e => e.month == PyVal.vInt month)

/-! ## General helper lemmas -/

/-- When at most one element of a list satisfies p, nothing satisfying p
survives eraseP (removing the first match removes them all). -/
theorem eraseP_all_neg {α : Type} (p : α → Bool) :
    ∀ l : List α, l.countP p ≤ 1 → ∀ a ∈ l.eraseP p, p a = false := by
  intro l
  induction l with
  | nil => intro _ a ha; simp [List.eraseP] at ha
  | cons x xs ih =>
    intro h a ha
    by_cases hx : p x
    · rw [List.eraseP_cons_of_pos hx] at ha
      rw [List.countP_cons_of_pos p xs hx] at h
      have h0 : xs.countP p = 0 := by omega
      simpa using List.countP_eq_zero.mp h0 a ha
    · rw [List.eraseP_cons_of_neg hx] at ha
      rcases List.mem_cons.mp ha with rfl | ha2
      · simpa using hx
      · refine ih ?_ a ha2
        rw [List.countP_cons_of_neg p xs hx] at h
        exact h

/-- Erasing the index found by findIdx? is erasing the first element
satisfying the predicate (list.index followed by list.pop in the
source). -/
theorem eraseIdx_of_findIdx? {α : Type} (p : α → Bool) :
    ∀ (l : List α) (i : Nat), l.findIdx? p = some i → l.eraseIdx i = l.eraseP p := by
  intro l
  induction l with
  | nil => intro i h; simp [List.findIdx?] at h
  | cons x xs ih =>
    intro i h
    rw [List.findIdx?_cons] at h
    by_cases hx : p x
    · rw [if_pos hx] at h
      cases h
      rw [List.eraseP_cons_of_pos hx]
      rfl
    · rw [if_neg hx, List.findIdx?_succ] at h
      rcases Option.map_eq_some'.mp h with ⟨j, hj, rfl⟩
      rw [List.eraseP_cons_of_neg hx]
      show x :: xs.eraseIdx j = x :: xs.eraseP p
      rw [ih j hj]

/-- list.index finds an index for any member. -/
theorem findIdx?_of_mem {α : Type} [BEq α] [LawfulBEq α] (a : α) :
    ∀ l : List α, a ∈ l → ∃ i, l.findIdx? (fun x => x == a) = some i := by
  intro l
  induction l with
  | nil => intro h; cases h
  | cons x xs ih =>
    intro h
    rw [List.findIdx?_cons]
    by_cases hx : (x == a : Bool)
    · exact ⟨0, by rw [if_pos hx]⟩
    · rcases List.mem_cons.mp h with rfl | h2
      · simp at hx
      · rcases ih h2 with ⟨j, hj⟩
        exact ⟨j + 1, by rw [if_neg hx, List.findIdx?_succ, hj]; rfl⟩

/-- list.index finds nothing for a non-member. -/
theorem findIdx?_of_not_mem {α : Type} [BEq α] [LawfulBEq α] (a : α) :
    ∀ l : List α, a ∉ l → l.findIdx? (fun x => x == a) = none := by
  intro l
  induction l with
  | nil => intro _; rfl
  | cons x xs ih =>
    intro h
    rw [List.findIdx?_cons]
    have hx : ¬ (x == a : Bool) := by
      simp only [beq_iff_eq]
      intro hxa
      exact h (hxa ▸ List.mem_cons_self x xs)
    rw [if_neg hx, List.findIdx?_succ, ih (fun h2 => h (List.mem_cons_of_mem x h2))]
    rfl

/-! ## Concrete fixtures used by the claim theorems and witnesses -/

/-- An empty database. -/
def dbEmpty : DB := { users := [], calendars := [], events := [], nextEventId := 1 }

/-- A calendar (id 1) shared under the 8-character token "Ab3xY9Zq",
owning one non-private event. -/
def evC1 : Event :=
  { id := 1, calendar_id := 1, title := .vStr "party", month := .vInt 6, day := .vInt 15,
    year := .vNone, notes := .vNone, privateFlag := .vInt 0 }

/-- Database for the share-link scenario: one shared calendar, one
non-private event. -/
def dbC1 : DB :=
  { users := [], calendars := [{ id := 1, user_id := 1, share_url := some "Ab3xY9Zq" }],
    events := [evC1], nextEventId := 2 }

/-- A stored event whose notes cell holds the text "cake". -/
def evC3db : Event :=
  { id := 1, calendar_id := 1, title := .vStr "t", month := .vInt 1, day := .vInt 2,
    year := .vNone, notes := .vStr "cake", privateFlag := .vInt 0 }

/-- The same event in memory with notes changed to None. -/
def evC3mem : Event := { evC3db with notes := .vNone }

/-- Database holding the stored copy of evC3db. -/
def dbC3 : DB := { users := [], calendars := [], events := [evC3db], nextEventId := 2 }

/-- Database for the insert-event default scenario: one calendar, no
events yet. -/
def dbC9 : DB :=
  { users := [], calendars := [{ id := 1, user_id := 1, share_url := none }],
    events := [], nextEventId := 1 }

/-- The authenticated session sitting on dbC9's calendar. -/
def sessC9 : Session :=
  { user := some { id := 1, username := "alice", pw_hash := "h", email := .vNone },
    calendar := some { id := 1, user_id := 1, share_url := none }, events := some [] }

/-- The row Session.new_event is expected to produce on dbC9 when the
caller leaves private at the session-level default 0. -/
def evC9session : Event :=
  { id := 1, calendar_id := 1, title := .vStr "t", month := .vInt 1, day := .vInt 2,
    year := .vNone, notes := .vNone, privateFlag := .vInt 0 }

/-! ## Claim theorems -/

/-- C1: the claim says a ShareSession built from a calendar's share
token caches exactly the calendar's non-private events.  On the code,
get_calendar_by_share_url passes the raw token string (not a
one-element tuple) as the sqlite parameter pack, so an 8-character
token supplies 8 bindings to a 1-placeholder statement and sqlite3
raises ProgrammingError: ShareSession construction crashes before
caching anything.  The second conjunct shows the non-private event the
claim expected the session to expose does exist in storage. -/
theorem shareSession_real_token_crashes :
    mkShareSession dbC1 "Ab3xY9Zq" = .error .programmingError ∧
    get_all_events dbC1 1 true = [evC1] :=
  ⟨rfl, rfl⟩

/-- C3: the claim says a field changed to null is written and the
persisted value afterwards is null.  On the code the write is issued
(null differs from "cake") but add_update splices the value through
str(), persisting the text "None" instead of NULL.  The last conjunct
checks the comparison side of the claim: a row identical in memory and
storage (including a null-equal-null year) produces no writes. -/
theorem update_event_null_written_as_text :
    eventUpdates evC3db evC3mem = [(EventColumn.notes, PyVal.vStr "None")] ∧
    update_event dbC3 evC3mem = .ok { dbC3 with events := [{ evC3db with notes := .vStr "None" }] } ∧
    PyVal.vStr "None" ≠ PyVal.vNone ∧
    eventUpdates evC3db evC3db = [] :=
  ⟨rfl, rfl, by decide, rfl⟩

/-- C4: the claim says lookups by an unmatched key return NotFound.  On
the code every lookup does Entity(*fetchone()); a missing row makes
fetchone() return None and unpacking None raises TypeError, while
get_calendar_by_share_url raises ProgrammingError for every token whose
length is not 1, before the row is even consulted. -/
theorem entity_lookups_missing_row_raise :
    get_user dbEmpty "ghost" = .error .typeError ∧
    get_user_by_id dbEmpty 7 = .error .typeError ∧
    get_calendar dbEmpty 7 = .error .typeError ∧
    get_calendar_by_share_url dbEmpty "z" = .error .typeError ∧
    get_calendar_by_share_url dbEmpty "Ab3xY9Zq" = .error .programmingError ∧
    get_event dbEmpty 7 = .error .typeError :=
  ⟨rfl, rfl, rfl, rfl, rfl, rfl⟩

/-- C9: the claim says every creation path persists a non-null privacy
flag defaulting to 0.  Session.new_event does default private to 0
(third conjunct), but EventDAO.insert_event defaults private to None
and binds it explicitly as NULL, overriding the schema's DEFAULT 0, so
the persisted flag is null (first two conjuncts). -/
theorem insert_event_default_private_is_null :
    get_event (insert_event dbC9 1 (.vStr "t") (.vInt 1) (.vInt 2) .vNone .vNone .vNone) 1 =
      .ok { id := 1, calendar_id := 1, title := .vStr "t", month := .vInt 1, day := .vInt 2,
            year := .vNone, notes := .vNone, privateFlag := .vNone } ∧
    PyVal.vNone ≠ PyVal.vInt 0 ∧
    Session.new_event sessC9 dbC9 (.vStr "t") (.vInt 1) (.vInt 2) .vNone .vNone (.vInt 0) =
      .ok ({ sessC9 with events := some [evC9session] },
           { dbC9 with events := [evC9session], nextEventId := 2 }) :=
  ⟨rfl, by decide, rfl⟩

/-- User alice, whose stored hash verifies against the password "pw123"
under the identity hash function. -/
def uC5 : User := { id := 1, username := "alice", pw_hash := "pw123", email := .vNone }

/-- Alice's calendar. -/
def calC5 : Calendar := { id := 1, user_id := 1, share_url := none }

/-- Alice's one event. -/
def evC5 : Event :=
  { id := 1, calendar_id := 1, title := .vStr "Birthday", month := .vInt 6, day := .vInt 15,
    year := .vNone, notes := .vNone, privateFlag := .vInt 0 }

/-- Database for the login scenarios. -/
def dbC5 : DB := { users := [uC5], calendars := [calC5], events := [evC5], nextEventId := 2 }

/-- C5: correct username and password load the matching user, calendar
and event list; correct username with a wrong password leaves the
session unauthenticated (no attribute assigned, no exception); but an
unknown username makes get_user unpack a missing row and raise
TypeError — for every hash function, since the crash happens before any
hash comparison — where the claim says a NotFound error is surfaced. -/
theorem login_unknown_username_raises :
    mkSession id dbC5 "alice" "pw123" =
      .ok { user := some uC5, calendar := some calC5, events := some [evC5] } ∧
    mkSession id dbC5 "alice" "wrong" = .ok { user := none, calendar := none, events := none } ∧
    ∀ hashF : String → String, mkSession hashF dbC5 "ghost" "zzz" = .error .typeError :=
  ⟨rfl, rfl, fun _ => rfl⟩

/-- C10: each Event field mutator guards its argument with Python
truthiness, so falsy arguments are ignored: update_private(0) leaves the
flag unchanged (and with the int arguments the docstring mandates, a
private event can never be flipped to non-private here), update_title
with None or the empty string leaves the title, and a 0-valued month,
day or year leaves that date component. -/
theorem event_mutators_ignore_falsy (e : Event) (m d y : PyVal) (i : Int) :
    Event.update_private e (.vInt 0) = e ∧
    Event.update_title e .vNone = e ∧
    Event.update_title e (.vStr "") = e ∧
    (Event.update_date e (.vInt 0) d y).month = e.month ∧
    (Event.update_date e m (.vInt 0) y).day = e.day ∧
    (Event.update_date e m d (.vInt 0)).year = e.year ∧
    (e.privateFlag = .vInt 1 → (Event.update_private e (.vInt i)).privateFlag ≠ .vInt 0) := by
  refine ⟨?_, ?_, ?_, ?_, ?_, ?_, ?_⟩
  · simp [Event.update_private, truthy]
  · simp [Event.update_title, truthy]
  · simp [Event.update_title, truthy]
  · simp only [Event.update_date, truthy]
    split_ifs <;> simp_all
  · simp only [Event.update_date, truthy]
    split_ifs <;> simp_all
  · simp only [Event.update_date, truthy]
    split_ifs <;> simp_all
  · intro hp
    simp only [Event.update_private, truthy]
    by_cases hi : i = 0
    · subst hi
      simp [hp]
    · simp [hi, pyToInt]

/-- An event marked private, used to instantiate the mutator theorem. -/
def evC10 : Event :=
  { id := 1, calendar_id := 1, title := .vStr "t", month := .vInt 1, day := .vInt 2,
    year := .vNone, notes := .vNone, privateFlag := .vInt 1 }

/-- Witness for C10 at a concrete private event and concrete arguments. -/
theorem event_mutators_ignore_falsy_witness :
    Event.update_private evC10 (.vInt 0) = evC10 ∧
    Event.update_title evC10 .vNone = evC10 ∧
    Event.update_title evC10 (.vStr "") = evC10 ∧
    (Event.update_date evC10 (.vInt 0) (.vInt 4) (.vInt 5)).month = evC10.month ∧
    (Event.update_date evC10 (.vInt 3) (.vInt 0) (.vInt 5)).day = evC10.day ∧
    (Event.update_date evC10 (.vInt 3) (.vInt 4) (.vInt 0)).year = evC10.year ∧
    (Event.update_private evC10 (.vInt 5)).privateFlag ≠ .vInt 0 := by
  have h := event_mutators_ignore_falsy evC10 (.vInt 3) (.vInt 4) (.vInt 5) 5
  exact ⟨h.1, h.2.1, h.2.2.1, h.2.2.2.1, h.2.2.2.2.1, h.2.2.2.2.2.1, h.2.2.2.2.2.2 rfl⟩

/-- Stored event for the C2 scenario, notes "cake". -/
def evC2db : Event :=
  { id := 1, calendar_id := 1, title := .vStr "t", month := .vInt 1, day := .vInt 2,
    year := .vNone, notes := .vStr "cake", privateFlag := .vInt 0 }

/-- In-memory copy for the quote-free C2 case, notes changed to "tea". -/
def evC2mem : Event := { evC2db with notes := .vStr "tea" }

/-- Database holding the stored copy for the C2 scenario. -/
def dbC2 : DB := { users := [], calendars := [], events := [evC2db], nextEventId := 2 }

/-- The classic injection payload for the notes column: a leading text,
a quote that closes the literal, and a smuggled second assignment for
the title column whose own literal the formatter's closing quote ends. -/
def injStr : String :=
  "x" ++ String.mk [sqlQuote] ++ ", title = " ++ String.mk [sqlQuote] ++ "hacked"

/-- In-memory copy differing from the stored row only in notes, with
the injection payload as the new notes value. -/
def evC2inj : Event := { evC2db with notes := .vStr injStr }

/-- C2: the claim says an in-memory event differing from the stored row
only in notes makes update_event write the notes column alone, leaving
title, month, day, year and private unchanged.  The first six conjuncts
check the input differs only in notes, and the collected update is
indeed only for the notes column; a quote-free notes value also behaves
exactly as claimed (last conjunct).  But add_update splices the value
between single quotes in the statement text, so a notes value holding a
quote re-enters the statement: at the injection payload the executed
UPDATE also assigns the title column, and the persisted title becomes
"hacked" although title was equal in memory and storage before the
call.  The spec lists this frame property among its testable
properties, and every sibling query binds parameters instead of
formatting, so the formatting is the slip. -/
theorem update_event_injection_breaks_frame :
    evC2inj.title = evC2db.title ∧ evC2inj.month = evC2db.month ∧
    evC2inj.day = evC2db.day ∧ evC2inj.year = evC2db.year ∧
    evC2inj.privateFlag = evC2db.privateFlag ∧ evC2inj.notes ≠ evC2db.notes ∧
    eventUpdates evC2db evC2inj = [(EventColumn.notes, PyVal.vStr injStr)] ∧
    update_event dbC2 evC2inj =
      .ok { dbC2 with events := [{ evC2db with notes := .vStr "x", title := .vStr "hacked" }] } ∧
    PyVal.vStr "hacked" ≠ evC2db.title ∧
    update_event dbC2 evC2mem =
      .ok { dbC2 with events := [{ evC2db with notes := .vStr "tea" }] } :=
  ⟨rfl, rfl, rfl, rfl, rfl, by decide, rfl, rfl, by decide, rfl⟩

/-- C7: for an event present in the session cache, remove_event deletes
that event's row (the unique row carrying its id, by the primary-key
hypothesis) and removes the first structurally-identical entry from the
cache; for an event absent from the cache, list.index raises ValueError
before any storage access, so the call fails and neither storage nor
cache changes (the function returns no new state). -/
theorem remove_event_cache_and_row
    (sess : Session) (db : DB) (ev : Event) (evs : List Event)
    (he : sess.events = some evs)
    (hids : db.events.countP (fun r => r.id == ev.id) ≤ 1) :
    (ev ∈ evs →
      Session.remove_event sess db ev =
        .ok ({ sess with events := some (evs.eraseP (fun x => x == ev)) }, delete_event db ev) ∧
      (delete_event db ev).events = db.events.eraseP (fun r => r.id == ev.id) ∧
      ∀ r ∈ (delete_event db ev).events, ¬ r.id = ev.id) ∧
    (ev ∉ evs → Session.remove_event sess db ev = .error .valueError) := by
  constructor
  · intro hin
    rcases findIdx?_of_mem ev evs hin with ⟨i, hi⟩
    have herase := eraseIdx_of_findIdx? (fun x => x == ev) evs i hi
    refine ⟨?_, rfl, ?_⟩
    · simp only [Session.remove_event, he, attr]
      simp only [hi]
      show Except.ok ({ sess with events := some (evs.eraseIdx i) }, delete_event db ev) = _
      rw [herase]
    · intro r hr
      have hr2 : r ∈ db.events.eraseP (fun x => x.id == ev.id) := hr
      have hf := eraseP_all_neg (fun x => x.id == ev.id) db.events hids r hr2
      simpa using hf
  · intro hout
    have hnone := findIdx?_of_not_mem ev evs hout
    simp only [Session.remove_event, he, attr]
    simp only [hnone]

/-- The cached event for the C7 witness. -/
def evC7 : Event :=
  { id := 1, calendar_id := 1, title := .vStr "t", month := .vInt 1, day := .vInt 2,
    year := .vNone, notes := .vNone, privateFlag := .vInt 0 }

/-- An event that is not in the C7 cache (different id and title). -/
def evC7absent : Event :=
  { id := 9, calendar_id := 1, title := .vStr "x", month := .vInt 3, day := .vInt 4,
    year := .vNone, notes := .vNone, privateFlag := .vInt 0 }

/-- Session for the C7 witness, caching exactly evC7. -/
def sessC7 : Session := { user := none, calendar := none, events := some [evC7] }

/-- Database for the C7 witness, storing exactly evC7's row. -/
def dbC7 : DB := { users := [], calendars := [], events := [evC7], nextEventId := 2 }

/-- Witness for C7: removing the cached event, and failing on an absent
one, at a concrete one-event session. -/
theorem remove_event_cache_and_row_witness :
    (Session.remove_event sessC7 dbC7 evC7 =
      .ok ({ sessC7 with events := some (([evC7]).eraseP (fun x => x == evC7)) },
           delete_event dbC7 evC7) ∧
     ∀ r ∈ (delete_event dbC7 evC7).events, ¬ r.id = evC7.id) ∧
    Session.remove_event sessC7 dbC7 evC7absent = .error .valueError := by
  have h := remove_event_cache_and_row sessC7 dbC7 evC7 [evC7] rfl (by decide)
  have h2 := remove_event_cache_and_row sessC7 dbC7 evC7absent [evC7] rfl (by decide)
  exact ⟨⟨(h.1 (by decide)).1, (h.1 (by decide)).2.2⟩, h2.2 (by decide)⟩

/-- Any index reduced modulo the alphabet size picks a real alphabet
character. -/
theorem getD_mod_mem_share_chars (n : Nat) :
    share_chars.getD (n % share_chars.length) 'a' ∈ share_chars := by
  have hlen : 0 < share_chars.length := by decide
  have hlt : n % share_chars.length < share_chars.length := Nat.mod_lt _ hlen
  rw [List.getD_eq_getElem share_chars 'a' hlt]
  exact List.getElem_mem hlt

/-- Every generated token has length 8. -/
theorem generate_share_url_length (r : Nat → Nat) (off : Nat) :
    (generate_share_url r off 8).length = 8 := by
  show ((List.range 8).map
    (fun i => share_chars.getD (r (off + i) % share_chars.length) 'a')).length = 8
  simp

/-- Every character of a generated token comes from the alphabet. -/
theorem generate_share_url_chars (r : Nat → Nat) (off : Nat) :
    ∀ c ∈ (generate_share_url r off 8).toList, c ∈ share_chars := by
  intro c hc
  have hc2 : c ∈ (List.range 8).map
      (fun i => share_chars.getD (r (off + i) % share_chars.length) 'a') := hc
  rcases List.mem_map.mp hc2 with ⟨i, _, rfl⟩
  exact getD_mod_mem_share_chars _

/-- A successful share-url UPDATE rewrites exactly the matching
calendar row. -/
theorem update_share_url_ok (db : DB) (cal2 : Calendar) (db1 : DB)
    (h : update_calendar_share_url db cal2 = .ok db1) :
    db1 = { db with calendars := (db.calendars.map
      (fun c => if c.id == cal2.id then { c with share_url := cal2.share_url } else c)) } := by
  unfold update_calendar_share_url at h
  split_ifs at h
  cases h
  rfl

/-- The retry loop only ever returns a freshly generated token, and
persists exactly that token on the target calendar. -/
theorem new_share_url_loop_spec (r : Nat → Nat) (cal : Calendar) (db : DB) :
    ∀ (fuel attempt : Nat) (tok : String) (db1 : DB),
      new_share_url_loop r cal db fuel attempt = some (tok, db1) →
      (∃ k, tok = generate_share_url r (8 * k) 8) ∧
      db1.calendars = db.calendars.map
        (fun c => if c.id == cal.id then { c with share_url := some tok } else c) := by
  intro fuel
  induction fuel with
  | zero => intro attempt tok db1 h; exact Option.noConfusion h
  | succ n ih =>
    intro attempt tok db1 h
    simp only [new_share_url_loop] at h
    cases hupd : update_calendar_share_url db
        { cal with share_url := some (generate_share_url r (8 * attempt) 8) } with
    | ok dbx =>
      simp only [hupd] at h
      have h2 := Option.some.inj h
      have htok : tok = generate_share_url r (8 * attempt) 8 := (congrArg Prod.fst h2).symm
      have hdb1 : db1 = dbx := (congrArg Prod.snd h2).symm
      subst htok
      subst hdb1
      refine ⟨⟨attempt, rfl⟩, ?_⟩
      obtain rfl := update_share_url_ok db _ _ hupd
      rfl
    | error err =>
      simp only [hupd] at h
      exact ih (attempt + 1) tok db1 h

/-- C8: whenever new_share_url returns, the session's calendar and the
stored calendar row both carry a token that was freshly produced by
generate_share_url: it has length exactly 8 and draws every character
from the upper/lower-letters-plus-digits alphabet; rejected (colliding)
tokens are regenerated against the unchanged database until one is
accepted. -/
theorem new_share_url_token_spec
    (r : Nat → Nat) (sess : Session) (db : DB) (cal : Calendar) (fuel : Nat)
    (sess2 : Session) (db2 : DB)
    (hcal : sess.calendar = some cal)
    (hres : Session.new_share_url r sess db fuel = .ok (some (sess2, db2))) :
    ∃ tok : String,
      sess2 = { sess with calendar := some { cal with share_url := some tok } } ∧
      tok.length = 8 ∧
      (∀ c ∈ tok.toList, c ∈ share_chars) ∧
      (∃ k, tok = generate_share_url r (8 * k) 8) ∧
      db2.calendars = db.calendars.map
        (fun c => if c.id == cal.id then { c with share_url := some tok } else c) := by
  simp only [Session.new_share_url, hcal, attr] at hres
  cases hloop : new_share_url_loop r cal db fuel 0 with
  | none =>
    simp only [hloop] at hres
    exact Option.noConfusion (Except.ok.inj hres)
  | some pr =>
    obtain ⟨tok, db1⟩ := pr
    simp only [hloop] at hres
    have h2 := Option.some.inj (Except.ok.inj hres)
    have hs : sess2 = { sess with calendar := some { cal with share_url := some tok } } :=
      (congrArg Prod.fst h2).symm
    have hd : db2 = db1 := (congrArg Prod.snd h2).symm
    subst hs
    subst hd
    obtain ⟨hk, hdb⟩ := new_share_url_loop_spec r cal db fuel 0 tok _ hloop
    exact ⟨tok, rfl, by obtain ⟨k, rfl⟩ := hk; exact generate_share_url_length r (8 * k),
           by obtain ⟨k, rfl⟩ := hk; exact generate_share_url_chars r (8 * k), hk, hdb⟩

/-- Degenerate randomness for the C8 witness: every draw picks index 0. -/
def rC8 : Nat → Nat := fun _ => 0

/-- Calendar for the C8 witness. -/
def calC8 : Calendar := { id := 1, user_id := 1, share_url := none }

/-- Session for the C8 witness. -/
def sessC8 : Session := { user := none, calendar := some calC8, events := none }

/-- Database for the C8 witness. -/
def dbC8 : DB := { users := [], calendars := [calC8], events := [], nextEventId := 1 }

/-- Session state after the witness run: token "aaaaaaaa" installed. -/
def sessC8after : Session :=
  { sessC8 with calendar := some { calC8 with share_url := some "aaaaaaaa" } }

/-- Database state after the witness run. -/
def dbC8after : DB := { dbC8 with calendars := [{ calC8 with share_url := some "aaaaaaaa" }] }

/-- Witness for C8 at a concrete one-calendar database with degenerate
randomness: the first attempt is accepted. -/
theorem new_share_url_token_spec_witness :
    ∃ tok : String,
      sessC8after = { sessC8 with calendar := some { calC8 with share_url := some tok } } ∧
      tok.length = 8 ∧
      (∀ c ∈ tok.toList, c ∈ share_chars) ∧
      (∃ k, tok = generate_share_url rC8 (8 * k) 8) ∧
      dbC8after.calendars = dbC8.calendars.map
        (fun c => if c.id == calC8.id then { c with share_url := some tok } else c) :=
  new_share_url_token_spec rC8 sessC8 dbC8 calC8 1 sessC8after dbC8after rfl rfl

/-- C6 (amended): delete_account is a no-op unless confirm is truthy
under Python truthiness (not only the boolean True); when confirm is
truthy it deletes, in order, all events owned by the calendar, then the
calendar row, then the user row (each absent afterwards, by the
primary-key multiplicity hypotheses), and removes the session's user,
calendar and events attributes, so every further operation that reads
one of them fails with AttributeError — while delete_account with a
falsy confirm on the closed session remains a silent no-op. -/
theorem delete_account_truthy_semantics
    (sess : Session) (db : DB) (u : User) (cal : Calendar) (evs : List Event) (confirm : PyVal)
    (hu : sess.user = some u) (hc : sess.calendar = some cal) (he : sess.events = some evs)
    (hcals : db.calendars.countP (fun c => c.id == cal.id) ≤ 1)
    (husers : db.users.countP (fun x => x.id == u.id) ≤ 1) :
    (truthy confirm = false → Session.delete_account sess db confirm = .ok (sess, db)) ∧
    (truthy confirm = true →
      Session.delete_account sess db confirm =
        .ok ({ user := none, calendar := none, events := none },
             delete_user (delete_calendar (delete_calendar_events db cal) cal) u) ∧
      (∀ e ∈ (delete_user (delete_calendar (delete_calendar_events db cal) cal) u).events,
          ¬ e.calendar_id = cal.id) ∧
      (∀ c ∈ (delete_user (delete_calendar (delete_calendar_events db cal) cal) u).calendars,
          ¬ c.id = cal.id) ∧
      (∀ w ∈ (delete_user (delete_calendar (delete_calendar_events db cal) cal) u).users,
          ¬ w.id = u.id)) ∧
    (∀ (db2 : DB) (t m d y n p : PyVal) (ev : Event) (r2 : Nat → Nat) (fuel : Nat) (c2 : PyVal),
      Session.new_event { user := none, calendar := none, events := none } db2 t m d y n p =
        .error .attributeError ∧
      Session.get_month_events { user := none, calendar := none, events := none } 6 =
        .error .attributeError ∧
      Session.remove_event { user := none, calendar := none, events := none } db2 ev =
        .error .attributeError ∧
      Session.new_share_url r2 { user := none, calendar := none, events := none } db2 fuel =
        .error .attributeError ∧
      (truthy c2 = true →
        Session.delete_account { user := none, calendar := none, events := none } db2 c2 =
          .error .attributeError)) := by
  refine ⟨?_, ?_, ?_⟩
  · intro hF
    simp [Session.delete_account, hF]
  · intro hT
    refine ⟨?_, ?_, ?_, ?_⟩
    · simp only [Session.delete_account, hT, hc, hu, he, attr, if_true]
    · intro e heMem
      have h2 : e ∈ db.events.filter (fun x => x.calendar_id != cal.id) := heMem
      simpa using (List.mem_filter.mp h2).2
    · intro c hcMem
      have h2 : c ∈ db.calendars.eraseP (fun x => x.id == cal.id) := hcMem
      simpa using eraseP_all_neg (fun x => x.id == cal.id) db.calendars hcals c h2
    · intro w hwMem
      have h2 : w ∈ db.users.eraseP (fun x => x.id == u.id) := hwMem
      simpa using eraseP_all_neg (fun x => x.id == u.id) db.users husers w h2
  · intro db2 t m d y n p ev r2 fuel c2
    refine ⟨rfl, rfl, rfl, rfl, ?_⟩
    intro hc2
    simp [Session.delete_account, hc2, attr]

/-- The user for the C6 scenario. -/
def uC6 : User := { id := 1, username := "bob", pw_hash := "h", email := .vNone }

/-- The calendar for the C6 scenario. -/
def calC6 : Calendar := { id := 1, user_id := 1, share_url := none }

/-- The one event for the C6 scenario. -/
def evC6 : Event :=
  { id := 1, calendar_id := 1, title := .vStr "t", month := .vInt 1, day := .vInt 2,
    year := .vNone, notes := .vNone, privateFlag := .vInt 0 }

/-- An authenticated session for the C6 scenario. -/
def sessC6 : Session := { user := some uC6, calendar := some calC6, events := some [evC6] }

/-- Database for the C6 scenario. -/
def dbC6 : DB := { users := [uC6], calendars := [calC6], events := [evC6], nextEventId := 2 }

/-- C6 counterexample: confirm = 1, an int rather than the boolean True,
still triggers the full cascade — the user row is gone afterwards — so
delete_account is not a no-op for every non-boolean confirm value. -/
theorem delete_account_int_confirm_deletes :
    PyVal.vInt 1 ≠ PyVal.vBool true ∧
    Session.delete_account sessC6 dbC6 (PyVal.vInt 1) =
      .ok ({ user := none, calendar := none, events := none },
           { users := [], calendars := [], events := [], nextEventId := 2 }) ∧
    dbC6.users = [uC6] :=
  ⟨by decide, rfl, rfl⟩

/-- Witness for the amended C6 at the concrete one-user database: falsy
confirm is a no-op, boolean True cascades and empties the user table. -/
theorem delete_account_truthy_semantics_witness :
    Session.delete_account sessC6 dbC6 PyVal.vNone = .ok (sessC6, dbC6) ∧
    Session.delete_account sessC6 dbC6 (PyVal.vBool true) =
      .ok ({ user := none, calendar := none, events := none },
           delete_user (delete_calendar (delete_calendar_events dbC6 calC6) calC6) uC6) ∧
    ∀ w ∈ (delete_user (delete_calendar (delete_calendar_events dbC6 calC6) calC6) uC6).users,
        ¬ w.id = uC6.id := by
  have h := delete_account_truthy_semantics sessC6 dbC6 uC6 calC6 [evC6] PyVal.vNone
    rfl rfl rfl (by decide) (by decide)
  have h2 := delete_account_truthy_semantics sessC6 dbC6 uC6 calC6 [evC6] (PyVal.vBool true)
    rfl rfl rfl (by decide) (by decide)
  exact ⟨h.1 rfl, (h2.2.1 rfl).1, (h2.2.1 rfl).2.2.2⟩

end CalendarApp
